import Mathlib

/-!
Verification of the prison-geofencing service (`geofencing_api.py`).

The development shallowly embeds the `PrisonGeofencing` class and its Flask
routes.  Geometries are modelled by the class of shapes actually exercised by
the repository's data and spec scenarios: single points, axis-aligned
rectangular polygons, and the empty geometry; the shapely operations
(`contains`, negative `buffer`, planar `distance`) are given their documented
semantics on that class.  Coordinate reprojection (`to_crs`) between
EPSG:4326 and EPSG:3857 is modelled by an arbitrary pair of per-axis maps,
since Web Mercator transforms longitude and latitude independently and
monotonically, so it carries axis-aligned rectangles to axis-aligned
rectangles.  Pandas/GeoPandas frames are modelled as Lean lists of rows in
row order; `iterrows` is the list order, `idxmin` is the first index
attaining the minimum (frames carry the default RangeIndex, so labels and
positions coincide).  Wall-clock timestamps in responses are omitted from the
model.
-/

namespace Geofencing

/-- A planar point with exact rational coordinates.  Following shapely's
convention, `x` is the first coordinate (longitude / easting) and `y` the
second (latitude / northing). -/
structure Pt where
  x : ℚ
  y : ℚ
deriving DecidableEq, Repr

/-- Geometries handled by the model: a single point feature, an axis-aligned
rectangular polygon `[x0, x1] × [y0, y1]`, or the empty geometry (shapely's
`POLYGON EMPTY`, produced when a negative buffer consumes a shape). -/
inductive Geometry where
  | point (p : Pt)
  | rect (x0 y0 x1 y1 : ℚ)
  | empty
deriving DecidableEq, Repr

/-- Shapely `geom.contains(Point(q))`: true iff the query point meets the
interior of `geom`.  The interior of a polygon excludes its boundary, so a
point exactly on a rectangle's edge is NOT contained; the interior of a point
is the point itself; the empty geometry contains nothing. -/
def Geometry.containsPt : Geometry → Pt → Bool
  | .point p, q => decide (p = q)
  | .rect x0 y0 x1 y1, q =>
      decide (x0 < q.x) && decide (q.x < x1) && decide (y0 < q.y) && decide (q.y < y1)
  | .empty, _ => false

/-- Shapely `geom.buffer(-m)` for an erosion margin `m ≥ 0` (the only regime
the service uses: `_create_prison_zones` calls `buffer(-self.buffer_meters)`
with a nonnegative buffer).  A point (or an already empty geometry) erodes to
the empty geometry — shapely's `Point(...).buffer(0)` and
`Point(...).buffer(-m)` are both `POLYGON EMPTY`.  An axis-aligned rectangle
erodes to the inset rectangle, or to the empty geometry when the inset
degenerates.  (The `m < 0` dilation regime is outside the modelled domain;
theorems that depend on buffering carry a `0 ≤ m` hypothesis.) -/
def Geometry.negBuffer : Geometry → ℚ → Geometry
  | .point _, _ => .empty
  | .rect x0 y0 x1 y1, m =>
      if x0 + m < x1 - m ∧ y0 + m < y1 - m then
        .rect (x0 + m) (y0 + m) (x1 - m) (y1 - m)
      else
        .empty
  | .empty, _ => .empty

/-- A coordinate reprojection (`to_crs`) between the geographic CRS and the
metric CRS, modelled as independent maps of the two axes.  Web Mercator
(EPSG:4326 ↔ EPSG:3857) computes easting from longitude alone and northing
from latitude alone, each strictly monotonically on the valid domain, so a
per-axis map is the faithful shape of the transformation. -/
structure Proj where
  fx : ℚ → ℚ
  fy : ℚ → ℚ

/-- Apply a reprojection to a point. -/
def Proj.applyPt (P : Proj) (p : Pt) : Pt :=
  ⟨P.fx p.x, P.fy p.y⟩

/-- Apply a reprojection to a geometry, coordinate-wise.  A separable
monotone map sends an axis-aligned rectangle to an axis-aligned rectangle,
so this is the exact image for the modelled geometry class. -/
def Proj.apply (P : Proj) : Geometry → Geometry
  | .point p => .point (P.applyPt p)
  | .rect x0 y0 x1 y1 => .rect (P.fx x0) (P.fy y0) (P.fx x1) (P.fy y1)
  | .empty => .empty

/-- The identity reprojection (used to instantiate witnesses). -/
def idProj : Proj :=
  ⟨fun a => a, fun a => a⟩

/-- One row of the prisons GeoDataFrame as loaded by `gpd.read_file`: the
OSM identifier and type, the optional attribute tags surfaced by the service
(`name`, `operator`, `addr:state`, `addr:city`; `none` models a missing/NaN
value), and the feature geometry. -/
structure PrisonRow where
  osm_id : ℤ
  osm_type : String
  name : Option String
  operator : Option String
  addr_state : Option String
  addr_city : Option String
  geometry : Geometry
deriving DecidableEq, Repr

/-- A row of `prisons_metric` / `prisons_zones` after `_create_prison_zones`:
the original columns (with the active geometry column possibly reprojected)
plus the added `zone` column holding the eroded safety geometry. -/
structure MetricRow where
  row : PrisonRow
  zone : Geometry
deriving DecidableEq, Repr

/-- The state built by `PrisonGeofencing.__init__`. -/
structure PrisonGeofencing where
  prisons_gdf : List PrisonRow
  buffer_meters : ℚ
  prisons_metric : List MetricRow
  prisons_zones : List MetricRow
deriving DecidableEq, Repr

/-- `PrisonGeofencing.__init__(prisons_file, buffer_meters)` followed by
`_create_prison_zones`.  `rows` is the content of the prisons file (the
result of `gpd.read_file`), `toMetric` models `to_crs(epsg=3857)` and
`toGeo` models `to_crs(epsg=4326)`.

Faithful to the source:
  * `prisons_metric = prisons_gdf.to_crs(epsg=3857)` reprojects the active
    geometry column;
  * `prisons_metric['zone'] = prisons_metric.geometry.buffer(-buffer_meters)`
    erodes every metric geometry by the buffer;
  * `prisons_zones = prisons_metric.to_crs(epsg=4326)` reprojects ONLY the
    active geometry column back to geographic coordinates — GeoPandas
    `to_crs` does not touch the extra `zone` column, which therefore stays in
    metric (EPSG:3857) coordinates in `prisons_zones`. -/
def PrisonGeofencing.init (toMetric toGeo : Proj) (rows : List PrisonRow)
    (buffer_meters : ℚ) : PrisonGeofencing :=
  let metric : List MetricRow :=
    rows.map fun r =>
      let g := toMetric.apply r.geometry
      { row := { r with geometry := g }, zone := g.negBuffer buffer_meters }
  let zones : List MetricRow :=
    metric.map fun mr =>
      { mr with row := { mr.row with geometry := toGeo.apply mr.row.geometry } }
  { prisons_gdf := rows
    buffer_meters := buffer_meters
    prisons_metric := metric
    prisons_zones := zones }

/-- The `prison_info` object built by `check_location` for a matched zone:
`prison.get(col, default)` yields the attribute when present and the default
otherwise. -/
structure PrisonInfo where
  osm_id : ℤ
  name : String
  operator : String
  state : String
  city : String
deriving DecidableEq, Repr

/-- Extract the response attributes of a matched row, with the defaults used
by `check_location`. -/
def prisonInfoOf (mr : MetricRow) : PrisonInfo :=
  { osm_id := mr.row.osm_id
    name := mr.row.name.getD "Prisão não identificada"
    operator := mr.row.operator.getD "N/A"
    state := mr.row.addr_state.getD "N/A"
    city := mr.row.addr_city.getD "N/A" }

/-- The dictionary returned by `PrisonGeofencing.check_location` (the
wall-clock `timestamp` field is omitted from the model). -/
structure CheckResult where
  inside_prison : Bool
  risk_level : String
  action : String
  prison_info : Option PrisonInfo
  latitude : ℚ
  longitude : ℚ
deriving DecidableEq, Repr

/-- `PrisonGeofencing.check_location(latitude, longitude)`: build
`Point(longitude, latitude)` and scan `prisons_zones` in row order; the
first row whose `zone` contains the point yields the HIGH/BLOCK result with
that row's attributes, and if no row matches the LOW/ALLOW result is
returned.  The early `return` inside the `iterrows` loop is `List.find?`. -/
def PrisonGeofencing.check_location (g : PrisonGeofencing)
    (latitude longitude : ℚ) : CheckResult :=
  let point : Pt := ⟨longitude, latitude⟩
  match g.prisons_zones.find? (fun mr => mr.zone.containsPt point) with
  | some prison =>
      { inside_prison := true
        risk_level := "HIGH"
        action := "BLOCK"
        prison_info := some (prisonInfoOf prison)
        latitude := latitude
        longitude := longitude }
  | none =>
      { inside_prison := false
        risk_level := "LOW"
        action := "ALLOW"
        prison_info := none
        latitude := latitude
        longitude := longitude }

/-- `PrisonGeofencing.batch_check(locations)`: start from an empty `results`
list and append `check_location(lat, lon)` for each `(lat, lon)` in order. -/
def PrisonGeofencing.batch_check (g : PrisonGeofencing)
    (locations : List (ℚ × ℚ)) : List CheckResult :=
  locations.foldl (fun results loc => results ++ [g.check_location loc.1 loc.2]) []

/-- Pandas `Series.min()` over the distance series, in row order; `none`
models the NaN produced on an empty frame (a NaN minimum fails the
`min_distance_km <= max_distance_km` comparison, so the caller returns
`None`). -/
def seriesMin : List ℚ → Option ℚ
  | [] => none
  | d :: ds => some (ds.foldl min d)

/-- Pandas `Series.idxmin()`: with the default RangeIndex, the label of the
first row attaining the minimum is its position, i.e. the first index whose
value equals the minimum. -/
def seriesIdxmin (ds : List ℚ) (m : ℚ) : ℕ :=
  ds.findIdx (fun d => decide (d = m))

/-- Python's `round` to the nearest integer, rounding exact halves to the
even neighbour (banker's rounding), modelled on exact rationals. -/
def pyRoundInt (q : ℚ) : ℤ :=
  let n := ⌊q⌋
  let r := q - n
  if r < 1 / 2 then n
  else if 1 / 2 < r then n + 1
  else if n % 2 = 0 then n else n + 1

/-- Python's `round(q, ndigits)` on exact rationals. -/
def pyRound (ndigits : ℕ) (q : ℚ) : ℚ :=
  (pyRoundInt (q * 10 ^ ndigits) : ℚ) / 10 ^ ndigits

/-- The nested `prison_info` of a `get_nearest_prison` response. -/
structure NearestInfo where
  osm_id : ℤ
  name : String
  operator : String
  state : String
deriving DecidableEq, Repr

/-- The dictionary returned by `get_nearest_prison` when a prison lies
within the radius. -/
structure NearestResult where
  distance_km : ℚ
  distance_meters : ℚ
  prison_info : NearestInfo
deriving DecidableEq, Repr

/-- `PrisonGeofencing.get_nearest_prison(latitude, longitude,
max_distance_km)`.  `dist` is shapely's planar distance in the metric CRS
(`geom.distance(point)`), kept abstract; `toMetric` models the
`to_crs(epsg=3857)` reprojection of the query point.  The method computes
the distances from `prisons_metric.geometry` — the reprojected RAW
geometries, not the eroded `zone` column — takes their minimum, and if
`min_distance / 1000 <= max_distance_km` looks up the `idxmin` row of the
raw `prisons_gdf` for the reported attributes; otherwise it returns `None`.
The inner `none` branch of the row lookup is unreachable for states built by
`init` (the frames have equal length and `idxmin` is in range); it models
the `iloc` bounds check. -/
def PrisonGeofencing.get_nearest_prison (g : PrisonGeofencing)
    (dist : Geometry → Pt → ℚ) (toMetric : Proj)
    (latitude longitude max_distance_km : ℚ) : Option NearestResult :=
  let point : Pt := ⟨longitude, latitude⟩
  let point_metric : Pt := toMetric.applyPt point
  let distances := g.prisons_metric.map fun mr => dist mr.row.geometry point_metric
  match seriesMin distances with
  | none => none
  | some min_distance =>
      let min_distance_km := min_distance / 1000
      if min_distance_km ≤ max_distance_km then
        match g.prisons_gdf.get? (seriesIdxmin distances min_distance) with
        | some nearest_prison =>
            some { distance_km := pyRound 3 min_distance_km
                   distance_meters := pyRound 1 min_distance
                   prison_info :=
                     { osm_id := nearest_prison.osm_id
                       name := nearest_prison.name.getD "N/A"
                       operator := nearest_prison.operator.getD "N/A"
                       state := nearest_prison.addr_state.getD "N/A" } }
        | none => none
      else none

/-- A coordinate field of a request body, as seen by the route's
`float(...)` conversion: either a value that converts to a (rational) number,
or one on which `float` raises `ValueError`/`TypeError` (non-numeric string,
null, and similar). -/
inductive CoordVal where
  | num (q : ℚ)
  | invalid
deriving DecidableEq, Repr

/-- The `float(...)` conversion of one coordinate field. -/
def parseCoord : CoordVal → Option ℚ
  | .num q => some q
  | .invalid => none

/-- One element of the `locations` array of a batch request. -/
structure LocInput where
  latitude : CoordVal
  longitude : CoordVal
deriving DecidableEq, Repr

/-- Conversion of one batch element: both coordinates must convert. -/
def parseLoc (loc : LocInput) : Option (ℚ × ℚ) :=
  match parseCoord loc.latitude, parseCoord loc.longitude with
  | some lat, some lon => some (lat, lon)
  | _, _ => none

/-- The conversion loop of the `/api/v1/batch-check` route: elements are
converted in order and the FIRST failure aborts the whole loop (the route
`return`s a 400 from inside the `for`), so one bad element yields no
converted list at all. -/
def parseLocations : List LocInput → Option (List (ℚ × ℚ))
  | [] => some []
  | loc :: rest =>
      match parseLoc loc with
      | none => none
      | some lv => (parseLocations rest).map (fun ls => lv :: ls)

/-- An HTTP response of the single-point route: a 400 with an error message,
or a 200 with the verdict. -/
inductive CheckResponse where
  | badRequest (error : String)
  | ok (result : CheckResult)
deriving DecidableEq, Repr

/-- The `/api/v1/check-location` route, given present `latitude` and
`longitude` fields (the missing-field and data-not-loaded 400/500 guards and
the `transaction_id` passthrough are independent of the claims and omitted):
convert both fields with `float`; on failure answer 400 `Invalid
coordinates`, otherwise delegate to `check_location`.  No range check is
performed anywhere on the path. -/
def check_location_route (g : PrisonGeofencing)
    (latitude longitude : CoordVal) : CheckResponse :=
  match parseCoord latitude, parseCoord longitude with
  | some lat, some lon => .ok (g.check_location lat lon)
  | _, _ => .badRequest "Invalid coordinates"

/-- An HTTP response of the batch route. -/
inductive BatchResponse where
  | badRequest (error : String)
  | ok (total : ℕ) (results : List CheckResult)
deriving DecidableEq, Repr

/-- The `/api/v1/batch-check` route, given the `locations` array (the
missing-array and data-not-loaded guards are omitted as above): convert all
elements; if any element fails, the WHOLE request is answered with 400
`Invalid location format`; otherwise every element is checked and the
results are returned with their count. -/
def batch_check_route (g : PrisonGeofencing)
    (locs : List LocInput) : BatchResponse :=
  match parseLocations locs with
  | none => .badRequest "Invalid location format"
  | some locations =>
      let results := g.batch_check locations
      .ok results.length results

/-- Monadic rendering of `check_location`, with the object the Python method
reads through `self` as the state: the body only READS `self.prisons_zones`
(no attribute assignment occurs), so it is a `get` followed by pure
computation. -/
def check_locationM (latitude longitude : ℚ) :
    StateM PrisonGeofencing CheckResult := do
  let self ← get
  pure (self.check_location latitude longitude)

/-- Monadic rendering of `batch_check`: reads `self` and loops, with no
attribute assignment. -/
def batch_checkM (locations : List (ℚ × ℚ)) :
    StateM PrisonGeofencing (List CheckResult) := do
  let self ← get
  pure (self.batch_check locations)

/-- Monadic rendering of `get_nearest_prison`: reads `self.prisons_metric`
and `self.prisons_gdf`, with no attribute assignment. -/
def get_nearest_prisonM (dist : Geometry → Pt → ℚ) (toMetric : Proj)
    (latitude longitude max_distance_km : ℚ) :
    StateM PrisonGeofencing (Option NearestResult) := do
  let self ← get
  pure (self.get_nearest_prison dist toMetric latitude longitude max_distance_km)

/-- Monadic rendering of `_create_prison_zones`, the one method that DOES
mutate `self` (it assigns the `zone` column of `prisons_metric` and
reassigns `prisons_zones`); included to show the embedding distinguishes
mutating methods from the read-only query paths. -/
def create_prison_zonesM (toGeo : Proj) : StateM PrisonGeofencing Unit := do
  let self ← get
  set ({ self with
         prisons_metric := self.prisons_metric.map fun mr =>
           { mr with zone := mr.row.geometry.negBuffer self.buffer_meters } } :
        PrisonGeofencing)
  let self2 ← get
  set ({ self2 with
         prisons_zones := self2.prisons_metric.map fun mr =>
           { mr with row := { mr.row with geometry := toGeo.apply mr.row.geometry } } } :
        PrisonGeofencing)

/-- Shapely's topological boundary restricted to the modelled geometry
class: the edge ring of a rectangle; a point feature and the empty geometry
have empty boundary. -/
def Geometry.onBoundary : Geometry → Pt → Prop
  | .point _, _ => False
  | .rect x0 y0 x1 y1, q =>
      ((q.x = x0 ∨ q.x = x1) ∧ y0 ≤ q.y ∧ q.y ≤ y1) ∨
      ((q.y = y0 ∨ q.y = y1) ∧ x0 ≤ q.x ∧ q.x ≤ x1)
  | .empty, _ => False

instance (g : Geometry) (q : Pt) : Decidable (g.onBoundary q) := by
  cases g <;> simp [Geometry.onBoundary] <;> infer_instance

section Helpers

variable {α : Type}

/-- The fields of `init` unfolded: the raw frame is stored as loaded. -/
lemma init_gdf (P Q : Proj) (rows : List PrisonRow) (m : ℚ) :
    (PrisonGeofencing.init P Q rows m).prisons_gdf = rows := rfl

/-- The metric frame built by `init`, row by row. -/
lemma init_metric (P Q : Proj) (rows : List PrisonRow) (m : ℚ) :
    (PrisonGeofencing.init P Q rows m).prisons_metric =
      rows.map (fun r =>
        { row := { r with geometry := P.apply r.geometry }
          zone := (P.apply r.geometry).negBuffer m }) := rfl

/-- The zones frame built by `init`, row by row: the active geometry column
is reprojected back while the `zone` column keeps its metric value. -/
lemma init_zones (P Q : Proj) (rows : List PrisonRow) (m : ℚ) :
    (PrisonGeofencing.init P Q rows m).prisons_zones =
      rows.map (fun r =>
        { row := { r with geometry := Q.apply (P.apply r.geometry) }
          zone := (P.apply r.geometry).negBuffer m }) := by
  simp only [PrisonGeofencing.init, List.map_map]
  rfl

/-- The `zone` column of the prepared frame is the pointwise pure function
of the raw geometry and the margin. -/
lemma init_zone_col (P Q : Proj) (rows : List PrisonRow) (m : ℚ) :
    (PrisonGeofencing.init P Q rows m).prisons_zones.map MetricRow.zone =
      rows.map (fun r => (P.apply r.geometry).negBuffer m) := by
  rw [init_zones, List.map_map]
  rfl

/-- The accumulating loop of `batch_check`, generalized over the
accumulator. -/
lemma batch_check_foldl (g : PrisonGeofencing) :
    ∀ (locations : List (ℚ × ℚ)) (acc : List CheckResult),
      locations.foldl (fun results loc => results ++ [g.check_location loc.1 loc.2]) acc =
        acc ++ locations.map (fun loc => g.check_location loc.1 loc.2) := by
  intro locations
  induction locations with
  | nil => intro acc; simp
  | cons loc rest ih =>
      intro acc
      simp [List.foldl_cons, ih]

/-- `batch_check` is `check_location` mapped over the input in order. -/
lemma batch_check_eq_map (g : PrisonGeofencing) (locations : List (ℚ × ℚ)) :
    g.batch_check locations =
      locations.map (fun loc => g.check_location loc.1 loc.2) := by
  unfold PrisonGeofencing.batch_check
  simpa using batch_check_foldl g locations []

/-- The running minimum of a nonempty series is attained and is a lower
bound. -/
lemma foldl_min_spec :
    ∀ (ds : List ℚ) (d : ℚ),
      (ds.foldl min d = d ∨ ds.foldl min d ∈ ds) ∧
      ds.foldl min d ≤ d ∧ ∀ x ∈ ds, ds.foldl min d ≤ x := by
  intro ds
  induction ds with
  | nil => intro d; simp
  | cons a t ih =>
      intro d
      obtain ⟨hmem, hled, hlb⟩ := ih (min d a)
      refine ⟨?_, ?_, ?_⟩
      · rw [List.foldl_cons]
        rcases hmem with h | h
        · rcases min_choice d a with hda | hda
          · exact Or.inl (h.trans hda)
          · exact Or.inr (by rw [h, hda]; exact List.mem_cons_self a t)
        · exact Or.inr (List.mem_cons_of_mem a h)
      · exact le_trans hled (min_le_left d a)
      · intro x hx
        rcases List.mem_cons.mp hx with rfl | hx
        · exact le_trans hled (min_le_right d x)
        · exact hlb x hx

/-- `seriesMin` returns a member of the series. -/
lemma seriesMin_mem {l : List ℚ} {m : ℚ} (h : seriesMin l = some m) : m ∈ l := by
  cases l with
  | nil => simp [seriesMin] at h
  | cons d ds =>
      simp only [seriesMin, Option.some.injEq] at h
      obtain ⟨hmem, -, -⟩ := foldl_min_spec ds d
      subst h
      rcases hmem with h0 | h0
      · rw [h0]; exact List.mem_cons_self d ds
      · exact List.mem_cons_of_mem d h0

/-- `seriesMin` is a lower bound of the series. -/
lemma seriesMin_le {l : List ℚ} {m : ℚ} (h : seriesMin l = some m) :
    ∀ x ∈ l, m ≤ x := by
  cases l with
  | nil => simp [seriesMin] at h
  | cons d ds =>
      simp only [seriesMin, Option.some.injEq] at h
      obtain ⟨-, hled, hlb⟩ := foldl_min_spec ds d
      subst h
      intro x hx
      rcases List.mem_cons.mp hx with rfl | hx
      · exact hled
      · exact hlb x hx

/-- `idxmin` points at the first occurrence of the minimum. -/
lemma get?_seriesIdxmin {l : List ℚ} {m : ℚ} (h : m ∈ l) :
    l.get? (seriesIdxmin l m) = some m := by
  induction l with
  | nil => cases h
  | cons a t ih =>
      by_cases ha : a = m
      · subst ha
        simp [seriesIdxmin, List.findIdx_cons]
      · have hmt : m ∈ t := by
          rcases List.mem_cons.mp h with h0 | h0
          · exact absurd h0.symm ha
          · exact h0
        have hpa : (fun d => decide (d = m)) a = false := by
          simp [ha]
        simp only [seriesIdxmin, List.findIdx_cons, hpa, cond_false]
        exact ih hmt

/-- The index of the minimum is within the series. -/
lemma seriesIdxmin_lt_length {l : List ℚ} {m : ℚ} (h : m ∈ l) :
    seriesIdxmin l m < l.length :=
  List.get?_eq_some.mp (get?_seriesIdxmin h) |>.choose

/-- A failing element anywhere makes the conversion loop of the batch route
fail as a whole. -/
lemma parseLocations_eq_none {locs : List LocInput}
    (h : ∃ loc ∈ locs, parseLoc loc = none) : parseLocations locs = none := by
  induction locs with
  | nil => simp at h
  | cons loc rest ih =>
      obtain ⟨bad, hmem, hbad⟩ := h
      rcases List.mem_cons.mp hmem with rfl | hmem
      · simp [parseLocations, hbad]
      · cases hl : parseLoc loc with
        | none => simp [parseLocations, hl]
        | some lv => simp [parseLocations, hl, ih ⟨bad, hmem, hbad⟩]

/-- `check_location` when the scan over `prisons_zones` finds a containing
zone. -/
lemma check_location_some {g : PrisonGeofencing} {lat lon : ℚ} {mr : MetricRow}
    (h : g.prisons_zones.find? (fun mr => mr.zone.containsPt ⟨lon, lat⟩) = some mr) :
    g.check_location lat lon =
      { inside_prison := true
        risk_level := "HIGH"
        action := "BLOCK"
        prison_info := some (prisonInfoOf mr)
        latitude := lat
        longitude := lon } := by
  simp only [PrisonGeofencing.check_location, h]

/-- `check_location` when no zone contains the point. -/
lemma check_location_none {g : PrisonGeofencing} {lat lon : ℚ}
    (h : g.prisons_zones.find? (fun mr => mr.zone.containsPt ⟨lon, lat⟩) = none) :
    g.check_location lat lon =
      { inside_prison := false
        risk_level := "LOW"
        action := "ALLOW"
        prison_info := none
        latitude := lat
        longitude := lon } := by
  simp only [PrisonGeofencing.check_location, h]

/-- `find?` returns the element at the least index satisfying the
predicate. -/
lemma find?_first {p : α → Bool} :
    ∀ (l : List α) (i : ℕ) (hi : i < l.length),
      p (l.get ⟨i, hi⟩) = true →
      (∀ j (hj : j < i), p (l.get ⟨j, lt_trans hj hi⟩) = false) →
      l.find? p = some (l.get ⟨i, hi⟩) := by
  intro l
  induction l with
  | nil => intro i hi; exact absurd hi (Nat.not_lt_zero i)
  | cons a t ih =>
      intro i hi hp hfirst
      cases i with
      | zero => exact List.find?_cons_of_pos t hp
      | succ n =>
          have ha : p a = false := hfirst 0 (Nat.succ_pos n)
          rw [List.find?_cons_of_neg t (by simp [ha])]
          exact ih n (Nat.lt_of_succ_lt_succ hi) hp
            (fun j hj => hfirst (j + 1) (Nat.succ_lt_succ hj))

/-- A zero margin leaves a nondegenerate rectangle unchanged (shapely's
`buffer(0)` of a valid polygon is the polygon). -/
lemma negBuffer_zero_rect (x0 y0 x1 y1 : ℚ) (hx : x0 < x1) (hy : y0 < y1) :
    (Geometry.rect x0 y0 x1 y1).negBuffer 0 = Geometry.rect x0 y0 x1 y1 := by
  simp [Geometry.negBuffer, hx, hy]

/-- Pointwise form of the zone column as a function of the geometry column
alone. -/
lemma map_zone_by_geometry (P : Proj) (m : ℚ) (rs : List PrisonRow) :
    rs.map (fun r => (P.apply r.geometry).negBuffer m) =
      (rs.map PrisonRow.geometry).map (fun gm => (P.apply gm).negBuffer m) := by
  rw [List.map_map]
  rfl

/-- A point on a geometry's boundary does not meet its interior, so shapely
`contains` rejects it. -/
lemma onBoundary_not_containsPt (geom : Geometry) (q : Pt)
    (h : geom.onBoundary q) : geom.containsPt q = false := by
  cases geom with
  | point p => exact absurd h (by simp [Geometry.onBoundary])
  | empty => exact absurd h (by simp [Geometry.onBoundary])
  | rect x0 y0 x1 y1 =>
      simp only [Geometry.onBoundary] at h
      by_contra hb
      rw [Bool.not_eq_false] at hb
      simp only [Geometry.containsPt, Bool.and_eq_true, decide_eq_true_eq] at hb
      obtain ⟨⟨⟨h1, h2⟩, h3⟩, h4⟩ := hb
      rcases h with ⟨hx, -, -⟩ | ⟨hy, -, -⟩
      · rcases hx with hx | hx <;> linarith [hx ▸ h1, hx ▸ h2]
      · rcases hy with hy | hy <;> linarith [hy ▸ h3, hy ▸ h4]

end Helpers

section SampleData

/-- A sample zone row with a rectangular geometry (used to instantiate
witnesses). -/
def rowA : PrisonRow :=
  { osm_id := 7
    osm_type := "way"
    name := some "Zona A"
    operator := some "SEAP"
    addr_state := some "RJ"
    addr_city := some "Rio de Janeiro"
    geometry := .rect 0 0 10 10 }

/-- A second sample zone row with the same geometry as `rowA` but a lower
identifier and different attributes. -/
def rowB : PrisonRow :=
  { osm_id := 3
    osm_type := "way"
    name := some "Zona B"
    operator := none
    addr_state := none
    addr_city := none
    geometry := .rect 0 0 10 10 }

/-- A sample zone row whose raw geometry is a single point feature. -/
def rowPt : PrisonRow :=
  { osm_id := 1
    osm_type := "node"
    name := some "Zona C"
    operator := none
    addr_state := none
    addr_city := none
    geometry := .point ⟨-43, -22⟩ }

/-- A loaded service with one rectangular zone, identity reprojections and a
zero margin. -/
def sampleG : PrisonGeofencing :=
  PrisonGeofencing.init idProj idProj [rowA] 0

/-- A loaded service with two exactly overlapping zones: the row with the
HIGHER identifier comes first in row order. -/
def overlapG : PrisonGeofencing :=
  PrisonGeofencing.init idProj idProj [rowA, rowB] 0

/-- A loaded service whose single zone is a point feature, with the default
50 m margin. -/
def pointG : PrisonGeofencing :=
  PrisonGeofencing.init idProj idProj [rowPt] 50

/-- The sample service's zones frame, evaluated. -/
lemma sampleG_zones_eq :
    sampleG.prisons_zones = [{ row := rowA, zone := Geometry.rect 0 0 10 10 }] := by
  show (PrisonGeofencing.init idProj idProj [rowA] 0).prisons_zones = _
  rw [init_zones]
  simp only [List.map_cons, List.map_nil]
  rw [show idProj.apply rowA.geometry = Geometry.rect 0 0 10 10 from rfl,
      negBuffer_zero_rect 0 0 10 10 (by norm_num) (by norm_num)]
  rfl

/-- The overlapping sample service's zones frame, evaluated. -/
lemma overlapG_zones_eq :
    overlapG.prisons_zones =
      [{ row := rowA, zone := Geometry.rect 0 0 10 10 },
       { row := rowB, zone := Geometry.rect 0 0 10 10 }] := by
  show (PrisonGeofencing.init idProj idProj [rowA, rowB] 0).prisons_zones = _
  rw [init_zones]
  simp only [List.map_cons, List.map_nil]
  rw [show idProj.apply rowA.geometry = Geometry.rect 0 0 10 10 from rfl,
      show idProj.apply rowB.geometry = Geometry.rect 0 0 10 10 from rfl,
      negBuffer_zero_rect 0 0 10 10 (by norm_num) (by norm_num)]
  rfl

/-- The point-zone sample service's zones frame, evaluated: the safety
geometry is empty. -/
lemma pointG_zones_eq :
    pointG.prisons_zones = [{ row := rowPt, zone := Geometry.empty }] := rfl

end SampleData

/-- C1: for every coordinate query, if some zone's safety geometry (its
`zone` column) contains the query point then `check_location` returns a
result with `inside_prison = true`, `risk_level = HIGH`, `action = BLOCK`,
and the matched zone's identifier and attributes attached in `prison_info`;
otherwise it returns `inside_prison = false`, `risk_level = LOW`,
`action = ALLOW` and no zone info. -/
theorem check_location_verdict (g : PrisonGeofencing) (lat lon : ℚ) :
    (((g.check_location lat lon).inside_prison = true) ↔
        ∃ mr ∈ g.prisons_zones, mr.zone.containsPt ⟨lon, lat⟩ = true)
  ∧ ((∃ mr ∈ g.prisons_zones, mr.zone.containsPt ⟨lon, lat⟩ = true) →
        (g.check_location lat lon).risk_level = "HIGH" ∧
        (g.check_location lat lon).action = "BLOCK" ∧
        ∃ mr ∈ g.prisons_zones, mr.zone.containsPt ⟨lon, lat⟩ = true ∧
          (g.check_location lat lon).prison_info = some (prisonInfoOf mr))
  ∧ ((∀ mr ∈ g.prisons_zones, mr.zone.containsPt ⟨lon, lat⟩ = false) →
        (g.check_location lat lon).inside_prison = false ∧
        (g.check_location lat lon).risk_level = "LOW" ∧
        (g.check_location lat lon).action = "ALLOW" ∧
        (g.check_location lat lon).prison_info = none) := by
  cases hf : g.prisons_zones.find? (fun mr => mr.zone.containsPt ⟨lon, lat⟩) with
  | some mr =>
      have hp := List.find?_some hf
      have hmem := List.mem_of_find?_eq_some hf
      rw [check_location_some hf]
      refine ⟨?_, ?_, ?_⟩
      · simp only [true_iff]
        exact ⟨mr, hmem, hp⟩
      · exact fun _ => ⟨rfl, rfl, mr, hmem, hp, rfl⟩
      · intro hnone
        exact absurd hp (by simp [hnone mr hmem])
  | none =>
      have hall := List.find?_eq_none.mp hf
      rw [check_location_none hf]
      refine ⟨?_, ?_, ?_⟩
      · simp only [Bool.false_eq_true, false_iff]
        rintro ⟨mr, hmem, hp⟩
        exact hall mr hmem (by simp [hp])
      · rintro ⟨mr, hmem, hp⟩
        exact absurd (hall mr hmem) (by simp [hp])
      · exact fun _ => ⟨rfl, rfl, rfl, rfl⟩

/-- Witness for C1: in the sample service, the centre of the zone is flagged
HIGH with the zone's info, and a far-away point is flagged LOW with no
info. -/
theorem check_location_verdict_witness :
    ((sampleG.check_location 5 5).inside_prison = true ∧
      (sampleG.check_location 5 5).risk_level = "HIGH")
  ∧ ((sampleG.check_location 20 20).inside_prison = false ∧
      (sampleG.check_location 20 20).prison_info = none) := by
  have hex : ∃ mr ∈ sampleG.prisons_zones, mr.zone.containsPt ⟨5, 5⟩ = true := by
    rw [sampleG_zones_eq]; decide
  have hall : ∀ mr ∈ sampleG.prisons_zones, mr.zone.containsPt ⟨20, 20⟩ = false := by
    rw [sampleG_zones_eq]; decide
  exact ⟨⟨(check_location_verdict sampleG 5 5).1.mpr hex,
          ((check_location_verdict sampleG 5 5).2.1 hex).1⟩,
         ⟨((check_location_verdict sampleG 20 20).2.2 hall).1,
          ((check_location_verdict sampleG 20 20).2.2 hall).2.2.2⟩⟩

/-- C6 counterexample: with two exactly overlapping zones where the FIRST
row has `osm_id = 7` and the second `osm_id = 3`, a point inside both is
answered with the first row's zone (id 7), not the candidate with the
lowest identifier (id 3). -/
theorem overlap_not_lowest_id_cex :
    ((overlapG.check_location 5 5).prison_info.map PrisonInfo.osm_id = some 7)
  ∧ (∀ mr ∈ overlapG.prisons_zones, mr.zone.containsPt ⟨5, 5⟩ = true)
  ∧ (∃ mr ∈ overlapG.prisons_zones, mr.row.osm_id = 3)
  ∧ ((3 : ℤ) < 7) := by
  have hf : overlapG.prisons_zones.find? (fun mr => mr.zone.containsPt ⟨5, 5⟩) =
      some { row := rowA, zone := Geometry.rect 0 0 10 10 } := by
    rw [overlapG_zones_eq]; rfl
  rw [check_location_some hf]
  refine ⟨rfl, ?_, ?_, by decide⟩
  · rw [overlapG_zones_eq]; decide
  · rw [overlapG_zones_eq]; decide

/-- C6 (amended): if a point falls inside multiple overlapping zones, the
containment query deterministically returns the candidate EARLIEST IN ROW
ORDER of the zones frame (not necessarily the one with the lowest
identifier); repeated identical queries trivially return the same zone
because `check_location` is a pure function of the state and the
coordinates. -/
theorem check_location_first_row (g : PrisonGeofencing) (lat lon : ℚ)
    (i : ℕ) (hi : i < g.prisons_zones.length)
    (hc : (g.prisons_zones.get ⟨i, hi⟩).zone.containsPt ⟨lon, lat⟩ = true)
    (hfirst : ∀ j (hj : j < i),
      (g.prisons_zones.get ⟨j, lt_trans hj hi⟩).zone.containsPt ⟨lon, lat⟩ = false) :
    (g.check_location lat lon).inside_prison = true ∧
    (g.check_location lat lon).prison_info =
      some (prisonInfoOf (g.prisons_zones.get ⟨i, hi⟩)) := by
  have hf := find?_first (p := fun mr => mr.zone.containsPt ⟨lon, lat⟩)
    g.prisons_zones i hi hc hfirst
  rw [check_location_some hf]
  exact ⟨rfl, rfl⟩

/-- Witness for the amended C6: in the overlapping sample the zone at row 0
matches and is the one reported. -/
theorem check_location_first_row_witness :
    (overlapG.check_location 5 5).inside_prison = true ∧
    (overlapG.check_location 5 5).prison_info =
      some (prisonInfoOf { row := rowA, zone := Geometry.rect 0 0 10 10 }) := by
  have hlen : 0 < overlapG.prisons_zones.length := by
    rw [overlapG_zones_eq]; decide
  have hget : overlapG.prisons_zones.get ⟨0, hlen⟩ =
      { row := rowA, zone := Geometry.rect 0 0 10 10 } := by
    rw [List.get_of_eq overlapG_zones_eq]
    rfl
  have hc : (overlapG.prisons_zones.get ⟨0, hlen⟩).zone.containsPt ⟨5, 5⟩ = true := by
    rw [hget]; decide
  have h := check_location_first_row overlapG 5 5 0 hlen hc
    (fun j hj => absurd hj (Nat.not_lt_zero j))
  rw [hget] at h
  exact h

/-- C7: the `zone` (safety geometry) column produced by the prepare step is
the pointwise deterministic function of each row's raw geometry and the
single scalar margin: it equals `negBuffer (toMetric raw) m` row by row, and
two zone sets with identical raw geometry columns get bit-identical safety
geometry columns whatever their other attributes (recomputation from the
same input is idempotent because the computation is this pure function). -/
theorem prepare_zone_deterministic (P Q : Proj) (rows rows' : List PrisonRow)
    (m : ℚ) :
    ((PrisonGeofencing.init P Q rows m).prisons_zones.map MetricRow.zone =
        rows.map (fun r => (P.apply r.geometry).negBuffer m))
  ∧ (rows.map PrisonRow.geometry = rows'.map PrisonRow.geometry →
        (PrisonGeofencing.init P Q rows m).prisons_zones.map MetricRow.zone =
          (PrisonGeofencing.init P Q rows' m).prisons_zones.map MetricRow.zone) := by
  refine ⟨init_zone_col P Q rows m, ?_⟩
  intro h
  rw [init_zone_col, init_zone_col, map_zone_by_geometry, map_zone_by_geometry, h]

/-- Witness for C7: two single-row zone sets differing in every attribute
but sharing the raw geometry produce the same safety geometry column. -/
theorem prepare_zone_deterministic_witness :
    ([rowA].map PrisonRow.geometry = [rowB].map PrisonRow.geometry)
  ∧ (PrisonGeofencing.init idProj idProj [rowA] 0).prisons_zones.map MetricRow.zone =
      (PrisonGeofencing.init idProj idProj [rowB] 0).prisons_zones.map MetricRow.zone :=
  ⟨rfl, (prepare_zone_deterministic idProj idProj [rowA] [rowB] 0).2 rfl⟩

/-- C8: `batch_check` returns exactly one result per input point, in input
order: it is `check_location` mapped over the input list, so the output
length equals the input length and the i-th result is the check of the i-th
input. -/
theorem batch_check_order (g : PrisonGeofencing) (locations : List (ℚ × ℚ)) :
    (g.batch_check locations =
        locations.map (fun loc => g.check_location loc.1 loc.2))
  ∧ ((g.batch_check locations).length = locations.length)
  ∧ (∀ i : ℕ, (g.batch_check locations).get? i =
        (locations.get? i).map (fun loc => g.check_location loc.1 loc.2)) := by
  refine ⟨batch_check_eq_map g locations, ?_, ?_⟩
  · rw [batch_check_eq_map, List.length_map]
  · intro i
    rw [batch_check_eq_map, List.get?_map]

/-- C2 counterexample: a batch of three points whose middle element has a
non-numeric latitude is answered with a single whole-batch 400 `Invalid
location format` — no per-element results at all, so the two valid elements
get no verdicts; and a batch whose middle element has the out-of-range
numeric latitude 200 is not treated as invalid at all: every element,
including the invalid one, receives an ordinary containment verdict. -/
theorem batch_route_aborts_whole_batch_cex :
    (batch_check_route sampleG
        [⟨CoordVal.num 1, CoordVal.num 2⟩,
         ⟨CoordVal.invalid, CoordVal.num 3⟩,
         ⟨CoordVal.num 4, CoordVal.num 5⟩] =
      BatchResponse.badRequest "Invalid location format")
  ∧ (batch_check_route sampleG
        [⟨CoordVal.num 1, CoordVal.num 2⟩,
         ⟨CoordVal.num 200, CoordVal.num 3⟩,
         ⟨CoordVal.num 4, CoordVal.num 5⟩] =
      BatchResponse.ok 3 (sampleG.batch_check [(1, 2), (200, 3), (4, 5)])) :=
  ⟨rfl, rfl⟩

/-- C2 (amended): the batch route is all-or-nothing, not partial-failure: if
any element's coordinates fail the `float` conversion, the WHOLE batch is
rejected with a single 400 `Invalid location format` and no element is
checked; if every element converts, every element is checked in order.
Out-of-range numeric coordinates are not treated as invalid. -/
theorem batch_route_all_or_nothing (g : PrisonGeofencing)
    (locs : List LocInput) (parsed : List (ℚ × ℚ)) :
    ((∃ loc ∈ locs, parseLoc loc = none) →
        batch_check_route g locs = BatchResponse.badRequest "Invalid location format")
  ∧ (parseLocations locs = some parsed →
        batch_check_route g locs =
          BatchResponse.ok parsed.length
            (parsed.map (fun loc => g.check_location loc.1 loc.2))) := by
  constructor
  · intro h
    rw [batch_check_route, parseLocations_eq_none h]
  · intro h
    rw [batch_check_route, h]
    show BatchResponse.ok (g.batch_check parsed).length (g.batch_check parsed) =
      BatchResponse.ok parsed.length (parsed.map (fun loc => g.check_location loc.1 loc.2))
    rw [batch_check_eq_map, List.length_map]

/-- Witness for the amended C2: one malformed element rejects its whole
batch; an all-numeric batch is checked elementwise. -/
theorem batch_route_all_or_nothing_witness :
    (batch_check_route sampleG [⟨CoordVal.invalid, CoordVal.num 1⟩] =
        BatchResponse.badRequest "Invalid location format")
  ∧ (batch_check_route sampleG [⟨CoordVal.num 1, CoordVal.num 2⟩] =
        BatchResponse.ok ([((1 : ℚ), (2 : ℚ))]).length
          ([((1 : ℚ), (2 : ℚ))].map (fun loc => sampleG.check_location loc.1 loc.2))) :=
  ⟨(batch_route_all_or_nothing sampleG _ []).1
      ⟨⟨CoordVal.invalid, CoordVal.num 1⟩, List.mem_cons_self _ _, rfl⟩,
   (batch_route_all_or_nothing sampleG _ [(1, 2)]).2 rfl⟩

/-- C3 counterexample: the out-of-range latitude 200 is accepted by the
single-point route and answered with an ordinary containment verdict (200
OK, `risk_level = LOW`), not with any `InvalidCoordinate`-style error. -/
theorem check_route_out_of_range_cex :
    (check_location_route sampleG (CoordVal.num 200) (CoordVal.num 5) =
        CheckResponse.ok (sampleG.check_location 200 5))
  ∧ ((90 : ℚ) < 200)
  ∧ ((sampleG.check_location 200 5).inside_prison = false)
  ∧ ((sampleG.check_location 200 5).risk_level = "LOW") := by
  have hf : sampleG.prisons_zones.find? (fun mr => mr.zone.containsPt ⟨5, 200⟩) = none := by
    rw [sampleG_zones_eq]; rfl
  refine ⟨rfl, by norm_num, ?_, ?_⟩
  · rw [check_location_none hf]
  · rw [check_location_none hf]

/-- C3 (amended): no range validation exists anywhere on the check path:
every numeric latitude/longitude — in range or not — is accepted and
produces a containment verdict computed at those coordinates, and only a
value on which the `float` conversion fails is rejected, by the HTTP route,
with a 400 `Invalid coordinates` error. -/
theorem check_route_numeric_validation (g : PrisonGeofencing)
    (latv lonv : CoordVal) (lat lon : ℚ) :
    (parseCoord latv = some lat → parseCoord lonv = some lon →
        check_location_route g latv lonv = CheckResponse.ok (g.check_location lat lon))
  ∧ (parseCoord latv = none →
        check_location_route g latv lonv = CheckResponse.badRequest "Invalid coordinates")
  ∧ (parseCoord lonv = none →
        check_location_route g latv lonv = CheckResponse.badRequest "Invalid coordinates") := by
  refine ⟨?_, ?_, ?_⟩
  · intro hlat hlon
    cases latv with
    | invalid => exact absurd hlat (by simp [parseCoord])
    | num a =>
        cases lonv with
        | invalid => exact absurd hlon (by simp [parseCoord])
        | num b =>
            simp only [parseCoord, Option.some.injEq] at hlat hlon
            subst hlat; subst hlon
            rfl
  · intro hlat
    cases latv with
    | num a => exact absurd hlat (by simp [parseCoord])
    | invalid => cases lonv <;> rfl
  · intro hlon
    cases lonv with
    | num b => exact absurd hlon (by simp [parseCoord])
    | invalid => cases latv <;> rfl

/-- Witness for the amended C3: the numeric out-of-range latitude 200 is
answered 200 OK with a verdict; a non-numeric latitude is answered 400. -/
theorem check_route_numeric_validation_witness :
    (check_location_route sampleG (CoordVal.num 200) (CoordVal.num 5) =
        CheckResponse.ok (sampleG.check_location 200 5))
  ∧ (check_location_route sampleG CoordVal.invalid (CoordVal.num 5) =
        CheckResponse.badRequest "Invalid coordinates") :=
  ⟨(check_route_numeric_validation sampleG (CoordVal.num 200) (CoordVal.num 5) 200 5).1 rfl rfl,
   (check_route_numeric_validation sampleG CoordVal.invalid (CoordVal.num 5) 0 0).2.1 rfl⟩

/-- C4 counterexample: a zone whose raw geometry is a single point is
buffered like any other geometry by the prepare step, and the negative
buffer of a point is the EMPTY geometry — not that same point — so with the
default 50 m margin the stored safety geometry is `empty`. -/
theorem point_zone_buffered_empty_cex :
    (pointG.prisons_zones.map MetricRow.zone = [Geometry.empty])
  ∧ (rowPt.geometry = Geometry.point ⟨-43, -22⟩)
  ∧ (Geometry.empty ≠ Geometry.point ⟨-43, -22⟩) := by
  refine ⟨?_, rfl, by decide⟩
  rw [pointG_zones_eq]
  rfl

/-- C4 (amended): the prepare step does NOT skip buffering for point
geometries: the negative buffer is applied to every geometry, and for a
zone whose raw geometry is a single point it yields the EMPTY safety
geometry (for any margin in the erosion regime `m ≥ 0`), against which
containment is always false. -/
theorem point_zone_safety_empty (P Q : Proj) (rows : List PrisonRow)
    (m : ℚ) (i : ℕ) (r : PrisonRow) (p : Pt)
    (hm : 0 ≤ m) (hr : rows.get? i = some r)
    (hp : r.geometry = Geometry.point p) :
    ∃ mr, (PrisonGeofencing.init P Q rows m).prisons_zones.get? i = some mr ∧
      mr.zone = Geometry.empty ∧ ∀ q : Pt, mr.zone.containsPt q = false := by
  rw [init_zones, List.get?_map, hr]
  refine ⟨_, rfl, ?_, ?_⟩
  · show (P.apply r.geometry).negBuffer m = Geometry.empty
    rw [hp]
    rfl
  · intro q
    show ((P.apply r.geometry).negBuffer m).containsPt q = false
    rw [hp]
    rfl

/-- Witness for the amended C4: the point-zone sample service at margin 50
stores an empty safety geometry that contains nothing. -/
theorem point_zone_safety_empty_witness :
    ((0 : ℚ) ≤ 50)
  ∧ ([rowPt].get? 0 = some rowPt)
  ∧ (rowPt.geometry = Geometry.point ⟨-43, -22⟩)
  ∧ (∃ mr, (PrisonGeofencing.init idProj idProj [rowPt] 50).prisons_zones.get? 0 = some mr ∧
       mr.zone = Geometry.empty ∧ ∀ q : Pt, mr.zone.containsPt q = false) :=
  ⟨by norm_num, rfl, rfl,
   point_zone_safety_empty idProj idProj [rowPt] 50 0 rowPt ⟨-43, -22⟩
     (by norm_num) rfl rfl⟩

/-- C10: shapely `contains` tests strict interior membership, so a query
point lying exactly on the boundary of a zone's safety geometry is reported
as not inside that zone; this holds even with a margin of 0, where the
safety geometry of a nondegenerate rectangular zone is the unchanged
original rectangle, whose boundary is still excluded.  If the point lies on
the boundary of every zone's safety geometry, the whole check answers
`inside_prison = false`. -/
theorem boundary_point_not_contained :
    (∀ (geom : Geometry) (q : Pt), geom.onBoundary q → geom.containsPt q = false)
  ∧ (∀ (x0 y0 x1 y1 : ℚ), x0 < x1 → y0 < y1 →
        (Geometry.rect x0 y0 x1 y1).negBuffer 0 = Geometry.rect x0 y0 x1 y1)
  ∧ (∀ (g : PrisonGeofencing) (lat lon : ℚ),
        (∀ mr ∈ g.prisons_zones, mr.zone.onBoundary ⟨lon, lat⟩) →
        (g.check_location lat lon).inside_prison = false) := by
  refine ⟨onBoundary_not_containsPt, negBuffer_zero_rect, ?_⟩
  intro g lat lon h
  have hf : g.prisons_zones.find? (fun mr => mr.zone.containsPt ⟨lon, lat⟩) = none := by
    rw [List.find?_eq_none]
    intro mr hmem
    simp [onBoundary_not_containsPt mr.zone ⟨lon, lat⟩ (h mr hmem)]
  rw [check_location_none hf]

/-- Witness for C10: in the sample service the point (lat 5, lon 0) lies on
the western edge of the zone and is answered `inside_prison = false`. -/
theorem boundary_point_not_contained_witness :
    ((Geometry.rect 0 0 10 10).containsPt ⟨0, 5⟩ = false)
  ∧ ((Geometry.rect 0 0 10 10).negBuffer 0 = Geometry.rect 0 0 10 10)
  ∧ ((sampleG.check_location 5 0).inside_prison = false) := by
  have hb : ∀ mr ∈ sampleG.prisons_zones, mr.zone.onBoundary ⟨0, 5⟩ := by
    rw [sampleG_zones_eq]; decide
  exact ⟨boundary_point_not_contained.1 (Geometry.rect 0 0 10 10) ⟨0, 5⟩ (by decide),
         boundary_point_not_contained.2.1 0 0 10 10 (by norm_num) (by norm_num),
         boundary_point_not_contained.2.2 sampleG 5 0 hb⟩

/-- Reduction of `get_nearest_prison` over a freshly initialised service:
the distance series ranges over the REPROJECTED RAW geometries (the active
geometry column of `prisons_metric`), and the reported row is looked up in
the raw `prisons_gdf`. -/
lemma get_nearest_init (P Q R : Proj) (dist : Geometry → Pt → ℚ)
    (rows : List PrisonRow) (m lat lon maxkm : ℚ) :
    (PrisonGeofencing.init P Q rows m).get_nearest_prison dist R lat lon maxkm =
      (match seriesMin (rows.map fun r => dist (P.apply r.geometry) (R.applyPt ⟨lon, lat⟩)) with
       | none => none
       | some min_distance =>
         if min_distance / 1000 ≤ maxkm then
           match rows.get? (seriesIdxmin
               (rows.map fun r => dist (P.apply r.geometry) (R.applyPt ⟨lon, lat⟩))
               min_distance) with
           | some nearest_prison =>
               some { distance_km := pyRound 3 (min_distance / 1000)
                      distance_meters := pyRound 1 min_distance
                      prison_info :=
                        { osm_id := nearest_prison.osm_id
                          name := nearest_prison.name.getD "N/A"
                          operator := nearest_prison.operator.getD "N/A"
                          state := nearest_prison.addr_state.getD "N/A" } }
           | none => none
         else none) := by
  have hd : (PrisonGeofencing.init P Q rows m).prisons_metric.map
      (fun mr => dist mr.row.geometry (R.applyPt ⟨lon, lat⟩)) =
      rows.map (fun r => dist (P.apply r.geometry) (R.applyPt ⟨lon, lat⟩)) := by
    rw [init_metric, List.map_map]
    rfl
  simp only [PrisonGeofencing.get_nearest_prison, init_gdf, hd]

/-- C5: `get_nearest_prison` computes the distance series against each
zone's raw geometry in the metric projection (`prisons_metric.geometry`) —
never the eroded `zone` column, so the answer is identical whatever the
buffer margin — and, when the minimal distance divided by 1000 is within
`max_distance_km`, returns the first row attaining that minimum together
with the planar distance in kilometres (rounded as the code rounds), and
`none` otherwise. -/
theorem get_nearest_prison_correct
    (P Q R : Proj) (dist : Geometry → Pt → ℚ) (rows : List PrisonRow)
    (m m' lat lon maxkm dmin : ℚ)
    (hmin : seriesMin (rows.map fun r =>
        dist (P.apply r.geometry) (R.applyPt ⟨lon, lat⟩)) = some dmin) :
    ((PrisonGeofencing.init P Q rows m).get_nearest_prison dist R lat lon maxkm =
        (PrisonGeofencing.init P Q rows m').get_nearest_prison dist R lat lon maxkm)
  ∧ (∀ d ∈ rows.map (fun r => dist (P.apply r.geometry) (R.applyPt ⟨lon, lat⟩)), dmin ≤ d)
  ∧ (dmin / 1000 ≤ maxkm →
      ∃ r, rows.get? (seriesIdxmin
            (rows.map fun r => dist (P.apply r.geometry) (R.applyPt ⟨lon, lat⟩)) dmin) =
          some r ∧
        dist (P.apply r.geometry) (R.applyPt ⟨lon, lat⟩) = dmin ∧
        (PrisonGeofencing.init P Q rows m).get_nearest_prison dist R lat lon maxkm =
          some { distance_km := pyRound 3 (dmin / 1000)
                 distance_meters := pyRound 1 dmin
                 prison_info :=
                   { osm_id := r.osm_id
                     name := r.name.getD "N/A"
                     operator := r.operator.getD "N/A"
                     state := r.addr_state.getD "N/A" } })
  ∧ (¬ (dmin / 1000 ≤ maxkm) →
      (PrisonGeofencing.init P Q rows m).get_nearest_prison dist R lat lon maxkm = none) := by
  refine ⟨?_, seriesMin_le hmin, ?_, ?_⟩
  · rw [get_nearest_init, get_nearest_init]
  · intro hle
    have hmem : dmin ∈ rows.map
        (fun r => dist (P.apply r.geometry) (R.applyPt ⟨lon, lat⟩)) :=
      seriesMin_mem hmin
    have hidx := get?_seriesIdxmin hmem
    rw [List.get?_map] at hidx
    obtain ⟨r, hr, hfr⟩ := Option.map_eq_some'.mp hidx
    refine ⟨r, hr, hfr, ?_⟩
    rw [get_nearest_init, hmin]
    show (if dmin / 1000 ≤ maxkm then _ else none) = _
    rw [if_pos hle, hr]
  · intro hnle
    rw [get_nearest_init, hmin]
    show (if dmin / 1000 ≤ maxkm then _ else none) = none
    rw [if_neg hnle]

/-- Witness for C5: with a constant distance function over two zones, the
minimum is attained and the answer is independent of the buffer margin. -/
theorem get_nearest_prison_correct_witness :
    (seriesMin ([rowA, rowB].map fun _ => (1000 : ℚ)) = some 1000)
  ∧ ((PrisonGeofencing.init idProj idProj [rowA, rowB] 0).get_nearest_prison
        (fun _ _ => 1000) idProj 5 5 5 =
      (PrisonGeofencing.init idProj idProj [rowA, rowB] 50).get_nearest_prison
        (fun _ _ => 1000) idProj 5 5 5) := by
  have hmin : seriesMin ([rowA, rowB].map fun _ => (1000 : ℚ)) = some 1000 := by
    simp [seriesMin, min_self]
  exact ⟨hmin,
    (get_nearest_prison_correct idProj idProj idProj (fun _ _ => 1000)
      [rowA, rowB] 0 50 5 5 5 1000 hmin).1⟩

/-- C9: no query path mutates the zone state: running `check_location`,
`batch_check` or `get_nearest_prison` (whose bodies only read `self`) in the
state monad over the service object leaves the state identical. -/
theorem query_paths_preserve_state (st : PrisonGeofencing)
    (lat lon maxkm : ℚ) (locations : List (ℚ × ℚ))
    (dist : Geometry → Pt → ℚ) (R : Proj) :
    (((check_locationM lat lon).run st).2 = st)
  ∧ (((batch_checkM locations).run st).2 = st)
  ∧ (((get_nearest_prisonM dist R lat lon maxkm).run st).2 = st) :=
  ⟨rfl, rfl, rfl⟩

end Geofencing
